import Mathlib

/-!
# next-watch backend: the recommendation flow of `server.js`

A shallow embedding of the request handlers of `src/server.js`:

* the JavaScript values that `JSON.parse` can return, with the few language
  operations the handlers apply to them (`Array.isArray`, property access,
  truthiness, `typeof`, `Object.values`, `slice`);
* the response normalisation of `POST /api/recommend` (lines 132-156);
* the two mongoose collections as lists, and the four handlers as functions
  from the store and the outcomes of the awaited external calls to a response
  and a new store.

External calls (the OpenAI client, the mongoose models, `JSON.parse`,
`Date.now`) are not part of the repository; their outcomes are inputs of the
model.
-/

namespace NextWatch

/-! ## JavaScript values -/

/-- A value returned by `JSON.parse`.  Numbers are IEEE doubles in JavaScript;
the handlers only ever test a number for being zero, so a rational stands for
it.  The fields of an object are listed in the enumeration order of
`Object.values`, one entry per key. -/
inductive JVal where
  | null
  | bool (b : Bool)
  | num (q : ℚ)
  | str (s : String)
  | arr (items : List JVal)
  | obj (fields : List (String × JVal))

/-- What a `throw` (or a rejected awaited promise) carries. -/
inductive Thrown where
  /-- a `TypeError` raised by the engine, with its engine-worded text -/
  | typeError (detail : String)
  /-- the `SyntaxError` of `JSON.parse` -/
  | syntaxError (detail : String)
  /-- the rejection of an awaited external call, with its message -/
  | rejected (msg : String)
  /-- the error of line 155, `new Error(...)` -/
  | parseFailure

/-- The text of line 155. -/
def parseFailureMessage : String := "Failed to parse movie recommendations"

/-- The field `error.message`. -/
def Thrown.message : Thrown → String
  | .typeError detail => detail
  | .syntaxError detail => detail
  | .rejected msg => msg
  | .parseFailure => parseFailureMessage

/-- The call `Array.isArray(v)`. -/
def JVal.isArray : JVal → Bool
  | .arr _ => true
  | _ => false

/-- JavaScript truthiness, the test of `if (v)`: `null`, `false`, `0` and the
empty string are falsy, every array and object is truthy. -/
def JVal.truthy : JVal → Bool
  | .null => false
  | .bool b => b
  | .num q => q != 0
  | .str s => s != ""
  | .arr _ => true
  | .obj _ => true

/-- Truthiness of the result of a property access, `none` being `undefined`. -/
def truthyProp : Option JVal → Bool
  | none => false
  | some v => v.truthy

/-- The test `typeof v === 'object'`: it holds of objects, of arrays and of
`null`. -/
def JVal.typeofObject : JVal → Bool
  | .null => true
  | .arr _ => true
  | .obj _ => true
  | _ => false

/-- The property access `v.key` for a key that no prototype defines (such as
`movies` and `recommendations`): `none` is `undefined`; reading a property of
`null` throws. -/
def JVal.getProp (key : String) : JVal → Except Thrown (Option JVal)
  | .null => .error (.typeError "Cannot read properties of null")
  | .obj fields => .ok (fields.lookup key)
  | _ => .ok none

/-- The call `Object.values(v)`: the field values of an object in enumeration
order, the elements of an array, one one-character string per index of a
string (all of them strings, whatever the indexing), nothing for a number or a
boolean; `null` throws. -/
def JVal.objectValues : JVal → Except Thrown (List JVal)
  | .null => .error (.typeError "Cannot convert undefined or null to object")
  | .obj fields => .ok (fields.map Prod.snd)
  | .arr items => .ok items
  | .str s => .ok (s.toList.map fun c => JVal.str (String.singleton c))
  | _ => .ok []

/-- The UTF-16 code units of a character. -/
def utf16Units (c : Char) : List Nat :=
  if c.toNat < 0x10000 then [c.toNat]
  else [0xD800 + (c.toNat - 0x10000) / 0x400, 0xDC00 + (c.toNat - 0x10000) % 0x400]

/-- The UTF-16 code units of a string, which is what JavaScript indexes. -/
def utf16 (s : String) : List Nat :=
  (s.toList.map utf16Units).flatten

/-- The value of the variable `recommendations` after line 151: an array, or
(when `slice` was applied to a string) a string given by its UTF-16 units. -/
inductive Recs where
  | seq (items : List JVal)
  | text (units : List Nat)

/-- The field `recommendations.length` of line 165. -/
def Recs.length : Recs → Nat
  | .seq items => items.length
  | .text units => units.length

/-- The call `v.slice(0, 3)` of line 151: the first three elements of an
array, the first three code units of a string; on any other value `slice` is
not a function. -/
def slice3 : JVal → Except Thrown Recs
  | .arr items => .ok (.seq (items.take 3))
  | .str s => .ok (.text ((utf16 s).take 3))
  | _ => .error (.typeError "recommendations.slice is not a function")

/-! ## The response normaliser (lines 137-151) -/

/-- The expression of line 147. -/
def fallbackValues (parsed : JVal) : Except Thrown JVal := do
  let values ← parsed.objectValues
  pure (.arr (values.filter JVal.typeofObject))

/-- Lines 140-148: the value assigned to `recommendations`. -/
def selectSource (parsed : JVal) : Except Thrown JVal :=
  if parsed.isArray then pure parsed
  else do
    let movies ← parsed.getProp "movies"
    if truthyProp movies then pure (movies.getD .null)
    else do
      let recommendations ← parsed.getProp "recommendations"
      if truthyProp recommendations then pure (recommendations.getD .null)
      else fallbackValues parsed

/-- Lines 140-151: select the source, then `slice(0, 3)`. -/
def normalize (parsed : JVal) : Except Thrown Recs := do
  let recommendations ← selectSource parsed
  slice3 recommendations

/-! ## The store -/

/-- A document of the `SearchHistory` collection (schema of lines 53-60). -/
structure SearchHistory where
  userId : String
  query : String
  timestamp : Nat

/-- An ObjectId, the type of the `_id` of a document: a 12-byte value, given
as the number that its 24 hexadecimal digits spell. -/
structure ObjectId where
  value : Nat
deriving DecidableEq

/-- An element of `recommendations` as the schema declares it (lines 32-42):
a path that holds no value is `none`, and `cast` is an array of strings.  The
`_id` that the store adds to each element is left out. -/
structure Movie where
  title : Option String
  year : Option ℚ
  genre : Option String
  rating : Option String
  description : Option String
  director : Option String
  cast : List String
  whyRecommended : Option String
  posterUrl : Option String

/-- A document of the `MovieRecommendation` collection (schema of lines
27-48), with the `_id` the store gave it. -/
structure MovieRecommendation where
  _id : ObjectId
  userQuery : String
  recommendations : List Movie
  userId : String
  createdAt : Nat

/-- The two collections, each in insertion order. -/
structure Store where
  history : List SearchHistory
  recs : List MovieRecommendation

/-! ## Requests, responses and the outcomes of external calls -/

/-- The two fields that line 83 reads from `request.body`; `none` is
`undefined`, which is also what a body that is no JSON object gives for both.
The fields are strings, as the schemas declare them. -/
structure Body where
  userQuery : Option String
  userId : Option String

/-- Truthiness of a string that may be `undefined`. -/
def truthyText : Option String → Bool
  | none => false
  | some s => s != ""

/-- What the awaited call of line 101 does. -/
inductive Completion where
  /-- the call rejects -/
  | rejected (msg : String)
  /-- it resolves, but line 134 cannot read `choices[0].message.content` -/
  | noContent
  /-- it resolves and line 134 reads this text -/
  | content (text : String)

/-- What the awaited `MovieRecommendation.create` of line 159 does. -/
inductive WriteResult where
  | rejected (msg : String)
  /-- the document is stored under this `_id` -/
  | stored (id : ObjectId)

/-- The outcomes of the external calls of one `POST /api/recommend`. -/
structure Env where
  /-- `Date.now` when the history entry is created -/
  historyAt : Nat
  /-- `some msg` when `SearchHistory.create` rejects with `msg` -/
  historyWrite : Option String
  llm : Completion
  /-- `Date.now` when the recommendation record is created -/
  recordAt : Nat
  recordWrite : WriteResult

/-- The replies of the four handlers. -/
inductive Response where
  /-- lines 167-172 -/
  | recommended (query : String) (recommendations : Recs) (recommendationId : ObjectId)
  /-- lines 194-197 -/
  | history (entries : List SearchHistory)
  /-- lines 217-220 -/
  | recommendations (records : List MovieRecommendation)
  /-- lines 244-247 -/
  | recommendation (record : MovieRecommendation)
  /-- `reply.code(400)` -/
  | badRequest (error : String)
  /-- `reply.code(404)` -/
  | notFound (error : String)
  /-- `reply.code(500)`, with the `message` field when the handler sends one -/
  | serverError (error : String) (message : Option String)

/-- The HTTP status of a reply. -/
def Response.status : Response → Nat
  | .badRequest _ => 400
  | .notFound _ => 404
  | .serverError _ _ => 500
  | _ => 200

/-- What a handler leaves behind: its reply, the store, and the user messages
it sent to the LLM. -/
structure Outcome where
  response : Response
  store : Store
  llmCalls : List String

/-! ## POST /api/recommend (lines 81-182) -/

/-- Lines 94-97: the history write, attempted only for a truthy `userId`. -/
def saveHistory (env : Env) (store : Store) (userId : Option String) (userQuery : String) :
    Except Thrown Store :=
  if truthyText userId then
    match env.historyWrite with
    | some msg => .error (.rejected msg)
    | none => .ok { store with
        history := store.history ++ [⟨userId.getD "", userQuery, env.historyAt⟩] }
  else .ok store

/-- The body of the inner `try` (lines 134-151). -/
def readRecommendations (parse : String → Option JVal) : Completion → Except Thrown Recs
  | .content text =>
    match parse text with
    | none => .error (.syntaxError "Unexpected token in JSON")
    | some parsed => normalize parsed
  | _ => .error (.typeError "Cannot read properties of undefined")

/-- Lines 132-156: whatever the inner `try` throws is replaced by the error
of line 155. -/
def parseRecommendations (parse : String → Option JVal) (completion : Completion) :
    Except Thrown Recs :=
  match readRecommendations parse completion with
  | .ok recommendations => .ok recommendations
  | .error _ => .error .parseFailure

/-- The value of `userId || 'anonymous'` (line 162). -/
def userIdOrAnonymous (userId : Option String) : String :=
  if truthyText userId then userId.getD "" else "anonymous"

/-- Lines 158-163: the record write.  `MovieRecommendation.create` casts the
document through the schema before it stores it: `castMovies` is that cast on
the value of `recommendations`, `none` when the value cannot be cast, in
which case the call rejects and nothing is stored. -/
def saveRecommendation (castMovies : Recs → Option (List Movie)) (env : Env) (store : Store)
    (userQuery : String) (recommendations : Recs) (userId : Option String) :
    Except Thrown (MovieRecommendation × Store) :=
  match castMovies recommendations with
  | none => .error (.rejected "MovieRecommendation validation failed")
  | some movies =>
    match env.recordWrite with
    | .rejected msg => .error (.rejected msg)
    | .stored id =>
      let savedRecommendation : MovieRecommendation :=
        ⟨id, userQuery, movies, userIdOrAnonymous userId, env.recordAt⟩
      .ok (savedRecommendation, { store with recs := store.recs ++ [savedRecommendation] })

/-- The reply of the outer `catch` (lines 174-181). -/
def recommendFailed (error : Thrown) : Response :=
  .serverError "Failed to generate recommendations" (some error.message)

/-- The handler of `POST /api/recommend`.  `body` is `request.body`, `none`
when the request carries no body (or the JSON `null`), on which the
destructuring of line 83 throws. -/
def recommend (parse : String → Option JVal) (castMovies : Recs → Option (List Movie))
    (env : Env) (store : Store) (body : Option Body) : Outcome :=
  match body with
  | none => ⟨recommendFailed (.typeError "Cannot destructure property userQuery"), store, []⟩
  | some b =>
    match b.userQuery with
    | none => ⟨.badRequest "User query is required", store, []⟩
    | some userQuery =>
      if userQuery == "" then ⟨.badRequest "User query is required", store, []⟩
      else
        match saveHistory env store b.userId userQuery with
        | .error e => ⟨recommendFailed e, store, []⟩
        | .ok logged =>
          match env.llm with
          | .rejected msg => ⟨recommendFailed (.rejected msg), logged, [userQuery]⟩
          | completion =>
            match parseRecommendations parse completion with
            | .error e => ⟨recommendFailed e, logged, [userQuery]⟩
            | .ok recommendations =>
              match saveRecommendation castMovies env logged userQuery recommendations
                  b.userId with
              | .error e => ⟨recommendFailed e, logged, [userQuery]⟩
              | .ok (savedRecommendation, stored) =>
                ⟨.recommended userQuery recommendations savedRecommendation._id, stored,
                  [userQuery]⟩

/-! ## The read handlers (lines 185-255) -/

/-- The order of `.sort({ timestamp: -1 })`: newest first. -/
def newerEntry (a b : SearchHistory) : Prop := b.timestamp ≤ a.timestamp

instance : DecidableRel newerEntry := fun a b => inferInstanceAs (Decidable (b.timestamp ≤ a.timestamp))

/-- The order of `.sort({ createdAt: -1 })`: newest first. -/
def newerRecord (a b : MovieRecommendation) : Prop := b.createdAt ≤ a.createdAt

instance : DecidableRel newerRecord := fun a b => inferInstanceAs (Decidable (b.createdAt ≤ a.createdAt))

instance : IsTotal SearchHistory newerEntry :=
  ⟨fun a b => Nat.le_total b.timestamp a.timestamp⟩

instance : IsTrans SearchHistory newerEntry :=
  ⟨fun _ _ _ hab hbc => Nat.le_trans hbc hab⟩

instance : IsTotal MovieRecommendation newerRecord :=
  ⟨fun a b => Nat.le_total b.createdAt a.createdAt⟩

instance : IsTrans MovieRecommendation newerRecord :=
  ⟨fun _ _ _ hab hbc => Nat.le_trans hbc hab⟩

/-- The query of lines 189-192: `find({ userId }).sort({ timestamp: -1 }).limit(10)`. -/
def findHistory (store : Store) (userId : String) : List SearchHistory :=
  (((store.history.filter fun e => e.userId == userId).insertionSort newerEntry).take 10)

/-- The query of lines 212-215: `find({ userId }).sort({ createdAt: -1 }).limit(20)`. -/
def findRecommendations (store : Store) (userId : String) : List MovieRecommendation :=
  (((store.recs.filter fun r => r.userId == userId).insertionSort newerRecord).take 20)

/-- The handler of `GET /api/history/:userId`; `readFails` is `some msg` when
the awaited query rejects. -/
def getHistory (readFails : Option String) (store : Store) (userId : String) : Outcome :=
  match readFails with
  | some _ => ⟨.serverError "Failed to fetch history" none, store, []⟩
  | none => ⟨.history (findHistory store userId), store, []⟩

/-- The handler of `GET /api/recommendations/:userId`. -/
def getRecommendations (readFails : Option String) (store : Store) (userId : String) :
    Outcome :=
  match readFails with
  | some _ => ⟨.serverError "Failed to fetch recommendations" none, store, []⟩
  | none => ⟨.recommendations (findRecommendations store userId), store, []⟩

/-- The call `MovieRecommendation.findById(id)` of line 235.  The `_id` of the
schema is an ObjectId, so mongoose first casts the string `id` to one:
`castObjectId` is that cast, `none` on a string that spells no ObjectId, on
which the query rejects.  The lookup compares ObjectIds, not spellings, and
resolves to `null` (`none`) when no document has that `_id`. -/
def findById (castObjectId : String → Option ObjectId) (readFails : Option String)
    (store : Store) (id : String) : Except Thrown (Option MovieRecommendation) :=
  match castObjectId id with
  | none => .error (.rejected "Cast to ObjectId failed")
  | some oid =>
    match readFails with
    | some msg => .error (.rejected msg)
    | none => .ok (store.recs.find? fun r => r._id == oid)

/-- The handler of `GET /api/recommendation/:id`. -/
def getRecommendation (castObjectId : String → Option ObjectId) (readFails : Option String)
    (store : Store) (id : String) : Outcome :=
  match findById castObjectId readFails store id with
  | .error _ => ⟨.serverError "Failed to fetch recommendation" none, store, []⟩
  | .ok none => ⟨.notFound "Recommendation not found", store, []⟩
  | .ok (some recommendation) => ⟨.recommendation recommendation, store, []⟩

/-- The value of a hexadecimal digit, in either case. -/
def hexDigit (c : Char) : Option Nat :=
  if 48 ≤ c.toNat ∧ c.toNat ≤ 57 then some (c.toNat - 48)
  else if 97 ≤ c.toNat ∧ c.toNat ≤ 102 then some (c.toNat - 87)
  else if 65 ≤ c.toNat ∧ c.toNat ≤ 70 then some (c.toNat - 55)
  else none

/-- The number that a string of hexadecimal digits spells. -/
def hexValue (digits : List Char) : Option Nat :=
  digits.foldl
    (fun acc c =>
      match acc, hexDigit c with
      | some n, some d => some (16 * n + d)
      | _, _ => none)
    (some 0)

/-- The cast of a string of 24 hexadecimal digits, in either case, to the
ObjectId it spells; a stand-in for the cast of mongoose, which rejects every
other string used below. -/
def hexObjectId (s : String) : Option ObjectId :=
  if s.length == 24 then (hexValue s.toList).map ObjectId.mk else none

/-- Whether `v.slice` is a function: arrays and strings have the method. -/
def JVal.hasSlice : JVal → Bool
  | .arr _ => true
  | .str _ => true
  | _ => false

/-- A declared String path of a stand-in cast: the string the key holds. -/
def textPath (fields : List (String × JVal)) (key : String) : Option String :=
  match fields.lookup key with
  | some (.str s) => some s
  | _ => none

/-- A declared Number path of a stand-in cast: the number the key holds. -/
def numberPath (fields : List (String × JVal)) (key : String) : Option ℚ :=
  match fields.lookup key with
  | some (.num q) => some q
  | _ => none

/-- The strings among the elements of an array. -/
def textsOf : List JVal → List String
  | [] => []
  | .str s :: rest => s :: textsOf rest
  | _ :: rest => textsOf rest

/-- A declared array-of-String path of a stand-in cast, empty by default. -/
def textsPath (fields : List (String × JVal)) (key : String) : List String :=
  match fields.lookup key with
  | some (.arr items) => textsOf items
  | _ => []

/-- A stand-in for the cast of one element through the schema of lines 32-42,
for objects whose declared paths already hold values of the declared types:
the nine declared paths are kept and every other key is dropped. -/
def castMovieSample : JVal → Option Movie
  | .obj fields =>
    some ⟨textPath fields "title", numberPath fields "year", textPath fields "genre",
      textPath fields "rating", textPath fields "description", textPath fields "director",
      textsPath fields "cast", textPath fields "whyRecommended", textPath fields "posterUrl"⟩
  | _ => none

/-- The stand-in cast on every element of an array. -/
def castAllSample : List JVal → Option (List Movie)
  | [] => some []
  | v :: rest =>
    match castMovieSample v, castAllSample rest with
    | some movie, some movies => some (movie :: movies)
    | _, _ => none

/-- A stand-in for the cast of `recommendations`: an array of such objects is
cast element by element, a string is rejected. -/
def castSample : Recs → Option (List Movie)
  | .seq items => castAllSample items
  | .text _ => none

/-- A plain object: neither an array nor `null`. -/
def JVal.isObject : JVal → Bool
  | .obj _ => true
  | _ => false

/-! ## Sample inputs -/

/-- External calls that all succeed: the LLM answers the text `[]`, the
record is stored under the ObjectId 1. -/
def calmEnv : Env :=
  ⟨10, none, .content "[]", 11, .stored ⟨1⟩⟩

/-- The JSON text of an object whose `movies` holds one movie with a `title`
and with a key `bogus` that the schema does not declare. -/
def bogusText : String :=
  "\x7b\"movies\":[\x7b\"title\":\"A\",\"bogus\":1\x7d]\x7d"

/-- A stand-in for `JSON.parse` that reads the text `[]` as the empty array,
the text `null` as `null` and `bogusText` as the object it spells, and rejects
every other text. -/
def parseSample (text : String) : Option JVal :=
  if text == "[]" then some (.arr [])
  else if text == "null" then some .null
  else if text == bogusText then
    some (.obj [("movies", .arr [.obj [("title", .str "A"), ("bogus", .num 1)]])])
  else none

/-- The empty store. -/
def emptyStore : Store := ⟨[], []⟩

/-- A store after twelve searches, eleven of them by `u1` at the times 1 to
11 and one by `u2`, and one recommendation. -/
def busyStore : Store :=
  ⟨[⟨"u1", "q1", 1⟩, ⟨"u1", "q2", 2⟩, ⟨"u1", "q3", 3⟩, ⟨"u2", "other", 4⟩,
    ⟨"u1", "q4", 4⟩, ⟨"u1", "q5", 5⟩, ⟨"u1", "q6", 6⟩, ⟨"u1", "q7", 7⟩,
    ⟨"u1", "q8", 8⟩, ⟨"u1", "q9", 9⟩, ⟨"u1", "q10", 10⟩, ⟨"u1", "q11", 11⟩],
   [⟨⟨0x0123456789abcdef01234567⟩, "drama", [], "u1", 12⟩]⟩

/-! ## Facts about the normaliser -/

theorem normalize_arr (xs : List JVal) : normalize (.arr xs) = .ok (.seq (xs.take 3)) := rfl

theorem selectSource_movies (fields : List (String × JVal)) (v : JVal)
    (hm : fields.lookup "movies" = some v) (ht : v.truthy = true) :
    selectSource (.obj fields) = .ok v := by
  simp [selectSource, JVal.isArray, JVal.getProp, hm, truthyProp, ht, bind, Except.bind, pure,
    Except.pure]

theorem selectSource_recommendations (fields : List (String × JVal)) (v : JVal)
    (hm : truthyProp (fields.lookup "movies") = false)
    (hr : fields.lookup "recommendations" = some v) (ht : v.truthy = true) :
    selectSource (.obj fields) = .ok v := by
  have hr2 : truthyProp (some v) = true := ht
  simp [selectSource, JVal.isArray, JVal.getProp, hm, hr, hr2, bind, Except.bind,
    pure, Except.pure]

theorem selectSource_fallback (fields : List (String × JVal))
    (hm : truthyProp (fields.lookup "movies") = false)
    (hr : truthyProp (fields.lookup "recommendations") = false) :
    selectSource (.obj fields)
      = .ok (.arr ((fields.map Prod.snd).filter JVal.typeofObject)) := by
  simp [selectSource, JVal.isArray, JVal.getProp, hm, hr, fallbackValues, JVal.objectValues,
    bind, Except.bind, pure, Except.pure]

theorem normalize_of_selectSource (parsed v : JVal) (h : selectSource parsed = .ok v) :
    normalize parsed = slice3 v := by
  simp [normalize, h, bind, Except.bind]

theorem slice3_length (v : JVal) (r : Recs) (h : slice3 v = .ok r) : r.length ≤ 3 := by
  cases v <;> simp [slice3] at h
  · subst h; simp [Recs.length]
  · subst h; simp [Recs.length]

theorem normalize_length (parsed : JVal) (r : Recs) (h : normalize parsed = .ok r) :
    r.length ≤ 3 := by
  unfold normalize at h
  cases hs : selectSource parsed with
  | error e => simp [hs, bind, Except.bind] at h
  | ok v =>
    simp [hs, bind, Except.bind] at h
    exact slice3_length v r h

/-! ## Facts about POST /api/recommend -/

theorem saveHistory_recs (env : Env) (store logged : Store) (userId : Option String)
    (userQuery : String) (h : saveHistory env store userId userQuery = .ok logged) :
    logged.recs = store.recs := by
  unfold saveHistory at h
  split at h
  · split at h
    · cases h
    · cases h; rfl
  · cases h; rfl

theorem parseRecommendations_ok (parse : String → Option JVal) (completion : Completion)
    (recs : Recs) (h : parseRecommendations parse completion = .ok recs) :
    ∃ text parsed, completion = .content text ∧ parse text = some parsed ∧
      normalize parsed = .ok recs := by
  unfold parseRecommendations at h
  split at h
  · rename_i r hr
    cases h
    cases completion with
    | rejected msg => simp [readRecommendations] at hr
    | noContent => simp [readRecommendations] at hr
    | content text =>
      simp only [readRecommendations] at hr
      cases hp : parse text with
      | none => simp [hp] at hr
      | some parsed =>
        simp only [hp] at hr
        exact ⟨text, parsed, rfl, hp, hr⟩
  · cases h

/-- What a `200` of `POST /api/recommend` tells about the request, the
external calls and the store. -/
theorem recommend_recommended (parse : String → Option JVal)
    (cast : Recs → Option (List Movie)) (env : Env) (store : Store)
    (body : Option Body) (query : String) (recs : Recs) (id : ObjectId)
    (h : (recommend parse cast env store body).response = .recommended query recs id) :
    ∃ b text parsed logged movies,
      body = some b ∧ b.userQuery = some query ∧ query ≠ "" ∧
      saveHistory env store b.userId query = .ok logged ∧
      env.llm = .content text ∧ parse text = some parsed ∧ normalize parsed = .ok recs ∧
      cast recs = some movies ∧ env.recordWrite = .stored id ∧
      (recommend parse cast env store body).store = { logged with
        recs := logged.recs ++
          [⟨id, query, movies, userIdOrAnonymous b.userId, env.recordAt⟩] } ∧
      (recommend parse cast env store body).llmCalls = [query] := by
  cases body with
  | none => simp [recommend, recommendFailed] at h
  | some b =>
    cases hq : b.userQuery with
    | none => simp [recommend, hq] at h
    | some q =>
      by_cases hempty : q = ""
      · simp [recommend, hq, hempty] at h
      · cases hh : saveHistory env store b.userId q with
        | error e => simp [recommend, hq, hempty, hh, recommendFailed] at h
        | ok logged =>
          cases hl : env.llm with
          | rejected msg => simp [recommend, hq, hempty, hh, hl, recommendFailed] at h
          | noContent =>
            simp [recommend, hq, hempty, hh, hl, parseRecommendations, readRecommendations,
              recommendFailed] at h
          | content text =>
            cases hp : parseRecommendations parse (.content text) with
            | error e => simp [recommend, hq, hempty, hh, hl, hp, recommendFailed] at h
            | ok r =>
              obtain ⟨text2, parsed, htext, hparse, hnorm⟩ :=
                parseRecommendations_ok parse _ r hp
              cases htext
              cases hc : cast r with
              | none =>
                simp [recommend, hq, hempty, hh, hl, hp, saveRecommendation, hc,
                  recommendFailed] at h
              | some movies =>
                cases hw : env.recordWrite with
                | rejected msg =>
                  simp [recommend, hq, hempty, hh, hl, hp, saveRecommendation, hc, hw,
                    recommendFailed] at h
                | stored id2 =>
                  simp [recommend, hq, hempty, hh, hl, hp, saveRecommendation, hc, hw] at h
                  obtain ⟨h1, h2, h3⟩ := h
                  subst h1 h2 h3
                  refine ⟨b, text, parsed, logged, movies, rfl, hq, hempty, hh, rfl, hparse,
                    hnorm, hc, rfl, ?_, ?_⟩
                  · simp [recommend, hq, hempty, hh, hl, hp, saveRecommendation, hc, hw]
                  · simp [recommend, hq, hempty, hh, hl, hp, saveRecommendation, hc, hw]

/-- A request with a non-empty `userQuery` whose history step does not reject
and whose inner `try` throws is answered by the `500` that carries the message
of line 155, and no record is stored. -/
theorem recommend_parse_failure (parse : String → Option JVal)
    (cast : Recs → Option (List Movie)) (env : Env) (store : Store) (b : Body)
    (query text : String) (hq : b.userQuery = some query) (hne : query ≠ "")
    (hhist : truthyText b.userId = true → env.historyWrite = none)
    (hllm : env.llm = .content text)
    (hp : parseRecommendations parse (.content text) = .error .parseFailure) :
    (recommend parse cast env store (some b)).response
      = .serverError "Failed to generate recommendations"
          (some "Failed to parse movie recommendations") ∧
    (recommend parse cast env store (some b)).response.status = 500 ∧
    (recommend parse cast env store (some b)).store.recs = store.recs := by
  have hh : ∃ logged, saveHistory env store b.userId query = .ok logged := by
    unfold saveHistory
    by_cases ht : truthyText b.userId = true
    · simp [ht, hhist ht]
    · simp [ht]
  obtain ⟨logged, hh⟩ := hh
  have hrecs := saveHistory_recs env store logged b.userId query hh
  simp [recommend, hq, hne, hh, hllm, hp, recommendFailed, Thrown.message,
    parseFailureMessage, Response.status, hrecs]

/-! ## The normaliser: claims C1 to C4 -/

/-- C1, counterexample: on the parsed value `null` and on the objects whose
`movies` is the number 5, `true` or an object, the normaliser throws, and on
an object whose `movies` is a string it returns a string: on none of them
does it produce a sequence. -/
theorem normalize_without_sequence :
    (¬ ∃ items, normalize JVal.null = .ok (.seq items)) ∧
    (¬ ∃ items, normalize (.obj [("movies", .num 5)]) = .ok (.seq items)) ∧
    (¬ ∃ items, normalize (.obj [("movies", .bool true)]) = .ok (.seq items)) ∧
    (¬ ∃ items, normalize (.obj [("movies", .obj [])]) = .ok (.seq items)) ∧
    normalize (.obj [("movies", .str "abcdef")]) = .ok (.text [97, 98, 99]) := by
  refine ⟨?_, ?_, ?_, ?_, rfl⟩
  · rintro ⟨items, h⟩
    have e : normalize JVal.null = .error (.typeError "Cannot read properties of null") := rfl
    rw [e] at h
    cases h
  · rintro ⟨items, h⟩
    have e : normalize (.obj [("movies", .num 5)])
        = .error (.typeError "recommendations.slice is not a function") := rfl
    rw [e] at h
    cases h
  · rintro ⟨items, h⟩
    have e : normalize (.obj [("movies", .bool true)])
        = .error (.typeError "recommendations.slice is not a function") := rfl
    rw [e] at h
    cases h
  · rintro ⟨items, h⟩
    have e : normalize (.obj [("movies", .obj [])])
        = .error (.typeError "recommendations.slice is not a function") := rfl
    rw [e] at h
    cases h

/-- C1, amended: for every parsed value other than `null` in which the field
the normaliser selects (`movies` when truthy, else `recommendations` when
truthy) is an array, the normaliser returns an ordered sequence of at most 3
elements; whatever the parsed value, what the normaliser returns has length at
most 3, and so has the `recommendations` of every `200` response of
`POST /api/recommend`; on `null`, and on every object in which the selected
field is truthy and has no `slice` (a number, `true`, an object), the
normaliser throws; and a request whose parsed LLM value makes the normaliser
throw is answered by the `500` of the parse failure, no record being
stored. -/
theorem normalize_at_most_three (parsed : JVal) (hnull : parsed ≠ .null)
    (hmovies : ∀ v, parsed.getProp "movies" = .ok (some v) → v.truthy = true →
      v.isArray = true)
    (hrecs : ∀ m v, parsed.getProp "movies" = .ok m → truthyProp m = false →
      parsed.getProp "recommendations" = .ok (some v) → v.truthy = true →
      v.isArray = true) :
    (∃ items, normalize parsed = .ok (.seq items) ∧ items.length ≤ 3) ∧
    (∀ (value : JVal) (result : Recs), normalize value = .ok result → result.length ≤ 3) ∧
    (∀ (parse : String → Option JVal) (cast : Recs → Option (List Movie)) (env : Env)
      (store : Store) (body : Option Body) (query : String) (recs : Recs) (id : ObjectId),
      (recommend parse cast env store body).response = .recommended query recs id →
      recs.length ≤ 3) ∧
    (∀ value : JVal,
      (value = .null ∨
        ∃ fields v, value = .obj fields ∧ v.truthy = true ∧ v.hasSlice = false ∧
          (fields.lookup "movies" = some v ∨
            (truthyProp (fields.lookup "movies") = false ∧
              fields.lookup "recommendations" = some v))) →
      ∃ e, normalize value = .error e) ∧
    (∀ (parse : String → Option JVal) (cast : Recs → Option (List Movie)) (env : Env)
      (store : Store) (b : Body) (query text : String) (value : JVal) (e : Thrown),
      b.userQuery = some query → query ≠ "" →
      (truthyText b.userId = true → env.historyWrite = none) →
      env.llm = .content text → parse text = some value → normalize value = .error e →
      (recommend parse cast env store (some b)).response
        = .serverError "Failed to generate recommendations"
            (some "Failed to parse movie recommendations") ∧
      (recommend parse cast env store (some b)).response.status = 500 ∧
      (recommend parse cast env store (some b)).store.recs = store.recs) := by
  refine ⟨?_, normalize_length, ?_, ?_, ?_⟩
  · have key : ∀ fields : List (String × JVal),
        (∀ v, fields.lookup "movies" = some v → v.truthy = true → v.isArray = true) →
        (truthyProp (fields.lookup "movies") = false →
          ∀ v, fields.lookup "recommendations" = some v → v.truthy = true →
          v.isArray = true) →
        ∃ items, normalize (.obj fields) = .ok (.seq items) ∧ items.length ≤ 3 := by
      intro fields h1 h2
      have fromArray : ∀ v : JVal, selectSource (.obj fields) = .ok v → v.isArray = true →
          ∃ items, normalize (.obj fields) = .ok (.seq items) ∧ items.length ≤ 3 := by
        intro v hs ha
        cases v <;> simp [JVal.isArray] at ha
        rename_i xs
        exact ⟨xs.take 3, by rw [normalize_of_selectSource _ _ hs]; rfl, by simp⟩
      cases hm : fields.lookup "movies" with
      | some v =>
        cases ht : v.truthy with
        | true => exact fromArray v (selectSource_movies fields v hm ht) (h1 v hm ht)
        | false =>
          have hmf : truthyProp (fields.lookup "movies") = false := by simp [hm, truthyProp, ht]
          cases hr : fields.lookup "recommendations" with
          | some w =>
            cases hw : w.truthy with
            | true =>
              exact fromArray w (selectSource_recommendations fields w hmf hr hw) (h2 hmf w hr hw)
            | false =>
              exact fromArray _ (selectSource_fallback fields hmf
                (by simp [hr, truthyProp, hw])) rfl
          | none =>
            exact fromArray _ (selectSource_fallback fields hmf (by simp [hr, truthyProp])) rfl
      | none =>
        have hmf : truthyProp (fields.lookup "movies") = false := by simp [hm, truthyProp]
        cases hr : fields.lookup "recommendations" with
        | some w =>
          cases hw : w.truthy with
          | true =>
            exact fromArray w (selectSource_recommendations fields w hmf hr hw) (h2 hmf w hr hw)
          | false =>
            exact fromArray _ (selectSource_fallback fields hmf
              (by simp [hr, truthyProp, hw])) rfl
        | none =>
          exact fromArray _ (selectSource_fallback fields hmf (by simp [hr, truthyProp])) rfl
    cases parsed with
    | null => exact absurd rfl hnull
    | bool b => exact ⟨[], rfl, by simp⟩
    | num q => exact ⟨[], rfl, by simp⟩
    | str s =>
      refine ⟨[], ?_, by simp⟩
      simp [normalize, selectSource, JVal.isArray, JVal.getProp, truthyProp, fallbackValues,
        JVal.objectValues, JVal.typeofObject, slice3, bind, Except.bind, pure, Except.pure]
    | arr xs => exact ⟨xs.take 3, rfl, by simp⟩
    | obj fields =>
      exact key fields (fun v h => hmovies v (by simp [JVal.getProp, h]))
        (fun hmf v h => hrecs _ v rfl hmf (by simp [JVal.getProp, h]))
  · intro parse cast env store body query recs id h
    obtain ⟨_, _, parsed, _, _, _, _, _, _, _, _, hnorm, _⟩ :=
      recommend_recommended parse cast env store body query recs id h
    exact normalize_length parsed recs hnorm
  · intro value hv
    rcases hv with hv | ⟨fields, v, hv, ht, hs, hsel⟩
    · subst hv
      exact ⟨_, rfl⟩
    · subst hv
      have hsrc : selectSource (.obj fields) = .ok v := by
        rcases hsel with hm | ⟨hmf, hr⟩
        · exact selectSource_movies fields v hm ht
        · exact selectSource_recommendations fields v hmf hr ht
      rw [normalize_of_selectSource _ _ hsrc]
      cases v with
      | null => simp [JVal.truthy] at ht
      | bool b => exact ⟨_, rfl⟩
      | num q => exact ⟨_, rfl⟩
      | str t => simp [JVal.hasSlice] at hs
      | arr xs => simp [JVal.hasSlice] at hs
      | obj fs => exact ⟨_, rfl⟩
  · intro parse cast env store b query text value e hq hne hhist hllm hparse hnorm
    have hp : parseRecommendations parse (.content text) = .error .parseFailure := by
      simp [parseRecommendations, readRecommendations, hparse, hnorm]
    exact recommend_parse_failure parse cast env store b query text hq hne hhist hllm hp

/-- C1, witness: the amended statement at the parsed value
`{"movies": [1, 2, 3, 4]}`. -/
theorem normalize_at_most_three_witness :
    JVal.obj [("movies", .arr [.num 1, .num 2, .num 3, .num 4])] ≠ .null ∧
    ∃ items, normalize (.obj [("movies", .arr [.num 1, .num 2, .num 3, .num 4])])
      = .ok (.seq items) ∧ items.length ≤ 3 :=
  ⟨by simp,
   (normalize_at_most_three (.obj [("movies", .arr [.num 1, .num 2, .num 3, .num 4])])
      (by simp)
      (by
        intro v h _
        simp [JVal.getProp, List.lookup] at h
        subst h
        rfl)
      (by
        intro m v _ _ h _
        simp [JVal.getProp, List.lookup] at h)).1⟩

/-- C2: for every sequence `xs` of JSON values, the normaliser applied to
the bare array `xs`, and applied to any object whose `movies` field is `xs`,
returns exactly the first `min 3 (length xs)` elements of `xs` in their
original order. -/
theorem normalize_array_and_movies (xs : List JVal) (fields : List (String × JVal))
    (hmovies : fields.lookup "movies" = some (.arr xs)) :
    normalize (.arr xs) = .ok (.seq (xs.take 3)) ∧
    normalize (.obj fields) = .ok (.seq (xs.take 3)) ∧
    (xs.take 3).length = min 3 xs.length ∧
    xs.take 3 <+: xs := by
  refine ⟨rfl, ?_, by simp, List.take_prefix 3 xs⟩
  rw [normalize_of_selectSource _ _ (selectSource_movies fields _ hmovies rfl)]
  rfl

/-- C2, witness: `{"movies": [1, 2, 3, 4]}` gives `[1, 2, 3]`, and so does the
bare array. -/
theorem normalize_array_and_movies_witness :
    normalize (.arr [.num 1, .num 2, .num 3, .num 4]) = .ok (.seq [.num 1, .num 2, .num 3]) ∧
    normalize (.obj [("movies", .arr [.num 1, .num 2, .num 3, .num 4])])
      = .ok (.seq [.num 1, .num 2, .num 3]) :=
  ⟨(normalize_array_and_movies [.num 1, .num 2, .num 3, .num 4]
      [("movies", .arr [.num 1, .num 2, .num 3, .num 4])] rfl).1,
   (normalize_array_and_movies [.num 1, .num 2, .num 3, .num 4]
      [("movies", .arr [.num 1, .num 2, .num 3, .num 4])] rfl).2.1⟩

/-- C3, counterexample: the object `{"movies": null, "recommendations": [1]}`
has a field `movies`, yet the result is taken from `recommendations`; and
`{"movies": 0, "x": {}}` has a field `movies`, yet the result is the fallback
collection. -/
theorem normalize_skips_falsy_movies :
    (List.lookup "movies" [("movies", JVal.null), ("recommendations", .arr [.num 1])]
      = some .null ∧
     normalize (.obj [("movies", .null), ("recommendations", .arr [.num 1])])
      = .ok (.seq [.num 1]) ∧
     normalize (.obj [("movies", .null), ("recommendations", .arr [.num 1])])
      ≠ slice3 .null) ∧
    (List.lookup "movies" [("movies", JVal.num 0), ("x", .obj [])] = some (.num 0) ∧
     normalize (.obj [("movies", .num 0), ("x", .obj [])]) = .ok (.seq [.obj []]) ∧
     normalize (.obj [("movies", .num 0), ("x", .obj [])]) ≠ slice3 (.num 0)) := by
  refine ⟨⟨rfl, rfl, ?_⟩, ⟨rfl, rfl, ?_⟩⟩
  · intro h
    have e : normalize (.obj [("movies", .null), ("recommendations", .arr [.num 1])])
        = .ok (.seq [.num 1]) := rfl
    rw [e] at h
    cases h
  · intro h
    have e : normalize (.obj [("movies", .num 0), ("x", .obj [])]) = .ok (.seq [.obj []]) := rfl
    rw [e] at h
    cases h

/-- C3, amended: for every object, if its `movies` field is truthy (present
and not `null`, `false`, `0` or the empty string) the result is `slice(0, 3)`
of that value, whether or not `recommendations` is present; otherwise, if its
`recommendations` field is truthy, the result is `slice(0, 3)` of that value;
and when neither field is truthy the result is the first 3 of the fallback
collection of line 147. -/
theorem normalize_priority (fields : List (String × JVal)) :
    (∀ v, fields.lookup "movies" = some v → v.truthy = true →
      normalize (.obj fields) = slice3 v) ∧
    (truthyProp (fields.lookup "movies") = false →
      ∀ v, fields.lookup "recommendations" = some v → v.truthy = true →
        normalize (.obj fields) = slice3 v) ∧
    (truthyProp (fields.lookup "movies") = false →
      truthyProp (fields.lookup "recommendations") = false →
      normalize (.obj fields)
        = .ok (.seq (((fields.map Prod.snd).filter JVal.typeofObject).take 3))) := by
  refine ⟨?_, ?_, ?_⟩
  · intro v hm ht
    exact normalize_of_selectSource _ _ (selectSource_movies fields v hm ht)
  · intro hmf v hr ht
    exact normalize_of_selectSource _ _ (selectSource_recommendations fields v hmf hr ht)
  · intro hmf hrf
    rw [normalize_of_selectSource _ _ (selectSource_fallback fields hmf hrf)]
    rfl

/-- C3, witness: with both fields present and truthy, `movies` wins; with a
falsy `movies`, `recommendations` is used. -/
theorem normalize_priority_witness :
    normalize (.obj [("recommendations", .arr [.num 7]), ("movies", .arr [.num 1])])
      = slice3 (.arr [.num 1]) ∧
    normalize (.obj [("movies", .str ""), ("recommendations", .arr [.num 7])])
      = slice3 (.arr [.num 7]) :=
  ⟨(normalize_priority [("recommendations", .arr [.num 7]), ("movies", .arr [.num 1])]).1
      (.arr [.num 1]) rfl rfl,
   (normalize_priority [("movies", .str ""), ("recommendations", .arr [.num 7])]).2.1
      rfl (.arr [.num 7]) rfl rfl⟩

/-- C4, the code at the failing inputs: with neither `movies` nor
`recommendations`, the array-valued field of `{"foo": [1, 2], "bar": "scalar"}`
and the `null` of `{"foo": null}` are kept, although neither object has an
object-valued field. -/
theorem normalize_keeps_arrays_and_null :
    (normalize (.obj [("foo", .arr [.num 1, .num 2]), ("bar", .str "scalar")])
      = .ok (.seq [.arr [.num 1, .num 2]]) ∧
     (([("foo", JVal.arr [.num 1, .num 2]), ("bar", .str "scalar")].map Prod.snd).filter
       JVal.isObject).length = 0) ∧
    (normalize (.obj [("foo", .null)]) = .ok (.seq [.null]) ∧
     (([("foo", JVal.null)].map Prod.snd).filter JVal.isObject).length = 0) :=
  ⟨⟨rfl, rfl⟩, ⟨rfl, rfl⟩⟩

/-- The fallback as the specification words it, for objects none of whose
field values is an array or `null`: the first 3 of the object-valued field
values, in field order. -/
theorem normalize_fallback_objects (fields : List (String × JVal))
    (hm : fields.lookup "movies" = none) (hr : fields.lookup "recommendations" = none)
    (hplain : ∀ p ∈ fields, p.2.typeofObject = p.2.isObject) :
    normalize (.obj fields)
      = .ok (.seq (((fields.map Prod.snd).filter JVal.isObject).take 3)) := by
  have hfilter : (fields.map Prod.snd).filter JVal.typeofObject
      = (fields.map Prod.snd).filter JVal.isObject := by
    apply List.filter_congr
    intro v hv
    obtain ⟨p, hp, rfl⟩ := List.mem_map.1 hv
    exact hplain p hp
  rw [normalize_of_selectSource _ _ (selectSource_fallback fields (by simp [hm, truthyProp])
    (by simp [hr, truthyProp])), hfilter]
  rfl

/-! ## POST /api/recommend: claims C5 to C8 -/

theorem saveHistory_history (env : Env) (store logged : Store) (userId : Option String)
    (userQuery : String) (h : saveHistory env store userId userQuery = .ok logged) :
    logged.history = if truthyText userId then
      store.history ++ [⟨userId.getD "", userQuery, env.historyAt⟩] else store.history := by
  unfold saveHistory at h
  split at h
  · rename_i ht
    split at h
    · cases h
    · cases h; simp [ht]
  · rename_i ht
    cases h; simp [ht]

/-- Once the history step is over, no later step touches the history
collection, whether it succeeds or fails. -/
theorem recommend_history_after_logging (parse : String → Option JVal)
    (cast : Recs → Option (List Movie)) (env : Env)
    (store logged : Store) (b : Body) (query : String) (hq : b.userQuery = some query)
    (hne : query ≠ "") (hh : saveHistory env store b.userId query = .ok logged) :
    (recommend parse cast env store (some b)).store.history = logged.history := by
  cases hl : env.llm with
  | rejected msg => simp [recommend, hq, hne, hh, hl]
  | noContent =>
    simp [recommend, hq, hne, hh, hl, parseRecommendations, readRecommendations]
  | content text =>
    cases hp : parseRecommendations parse (.content text) with
    | error e => simp [recommend, hq, hne, hh, hl, hp]
    | ok r =>
      cases hc : cast r with
      | none => simp [recommend, hq, hne, hh, hl, hp, saveRecommendation, hc]
      | some movies =>
        cases hw : env.recordWrite with
        | rejected msg => simp [recommend, hq, hne, hh, hl, hp, saveRecommendation, hc, hw]
        | stored id => simp [recommend, hq, hne, hh, hl, hp, saveRecommendation, hc, hw]

/-- A request that has a body but an empty or missing `userQuery` gets `400`
and has no side effect. -/
theorem recommend_missing_query (parse : String → Option JVal)
    (cast : Recs → Option (List Movie)) (env : Env) (store : Store)
    (b : Body) (hq : b.userQuery = none ∨ b.userQuery = some "") :
    (recommend parse cast env store (some b)).response = .badRequest "User query is required" ∧
    (recommend parse cast env store (some b)).response.status = 400 ∧
    (recommend parse cast env store (some b)).store = store ∧
    (recommend parse cast env store (some b)).llmCalls = [] := by
  rcases hq with hq | hq <;> simp [recommend, hq, Response.status]

/-- C5, the code at the failing input: a request with no body (or the JSON
body `null`) has a missing `userQuery`, and it is answered `500`, not `400`;
the stores are unchanged and the LLM is not called. -/
theorem recommend_without_body (parse : String → Option JVal)
    (cast : Recs → Option (List Movie)) (env : Env) (store : Store) :
    (recommend parse cast env store none).response.status = 500 ∧
    (recommend parse cast env store none).response.status ≠ 400 ∧
    (recommend parse cast env store none).store = store ∧
    (recommend parse cast env store none).llmCalls = [] := by
  simp [recommend, recommendFailed, Response.status]

/-- C6: for every request with a non-empty `userQuery` whose LLM call is
reached and returns a text that `JSON.parse` rejects, the response is the
`500` carrying the message of line 155, the recommendation collection is
unchanged, and the response is no `200` carrying recommendations. -/
theorem recommend_unparseable (parse : String → Option JVal)
    (cast : Recs → Option (List Movie)) (env : Env) (store : Store)
    (b : Body) (query text : String) (hq : b.userQuery = some query) (hne : query ≠ "")
    (hhist : truthyText b.userId = true → env.historyWrite = none)
    (hllm : env.llm = .content text) (hparse : parse text = none) :
    (recommend parse cast env store (some b)).response
      = .serverError "Failed to generate recommendations"
          (some "Failed to parse movie recommendations") ∧
    (recommend parse cast env store (some b)).response.status = 500 ∧
    (recommend parse cast env store (some b)).store.recs = store.recs ∧
    (∀ q recs id, (recommend parse cast env store (some b)).response ≠ .recommended q recs id) := by
  have hh : ∃ logged, saveHistory env store b.userId query = .ok logged := by
    unfold saveHistory
    by_cases ht : truthyText b.userId = true
    · simp [ht, hhist ht]
    · simp [ht]
  obtain ⟨logged, hh⟩ := hh
  have hrecs := saveHistory_recs env store logged b.userId query hh
  have hp : parseRecommendations parse (.content text) = .error .parseFailure := by
    simp [parseRecommendations, readRecommendations, hparse]
  simp [recommend, hq, hne, hh, hllm, hp, recommendFailed, Thrown.message,
    parseFailureMessage, Response.status, hrecs]

/-- C6, witness: a request for `drama` whose LLM text is `not json`. -/
theorem recommend_unparseable_witness :
    (recommend parseSample castSample { calmEnv with llm := .content "not json" } emptyStore
      (some ⟨some "drama", some "u1"⟩)).response
      = .serverError "Failed to generate recommendations"
          (some "Failed to parse movie recommendations") ∧
    (recommend parseSample castSample { calmEnv with llm := .content "not json" } emptyStore
      (some ⟨some "drama", some "u1"⟩)).store.recs = [] :=
  ⟨(recommend_unparseable parseSample castSample { calmEnv with llm := .content "not json" }
      emptyStore ⟨some "drama", some "u1"⟩ "drama" "not json" rfl (by decide) (fun _ => rfl)
      rfl rfl).1,
   (recommend_unparseable parseSample castSample { calmEnv with llm := .content "not json" }
      emptyStore ⟨some "drama", some "u1"⟩ "drama" "not json" rfl (by decide) (fun _ => rfl)
      rfl rfl).2.2.1⟩

/-- C7, counterexample: the request `{userQuery: "drama", userId: ""}`
supplies a `userId` and succeeds, yet the record created for it has the
`userId` `anonymous`, not the one of the request; and when the LLM answers a
movie with a key `bogus`, the response carries the movie with that key while
the record stores the movie as the schema casts it, without the key. -/
theorem recommend_empty_userId_anonymous :
    ((recommend parseSample castSample calmEnv emptyStore
      (some ⟨some "drama", some ""⟩)).response = .recommended "drama" (.seq []) ⟨1⟩ ∧
     (recommend parseSample castSample calmEnv emptyStore
      (some ⟨some "drama", some ""⟩)).store.recs.map (fun r => r.userId) = ["anonymous"] ∧
     (recommend parseSample castSample calmEnv emptyStore
      (some ⟨some "drama", some ""⟩)).store.recs.map (fun r => r.userId) ≠ [""]) ∧
    ((recommend parseSample castSample { calmEnv with llm := .content bogusText } emptyStore
      (some ⟨some "drama", some "u1"⟩)).response
      = .recommended "drama" (.seq [.obj [("title", .str "A"), ("bogus", .num 1)]]) ⟨1⟩ ∧
     (recommend parseSample castSample { calmEnv with llm := .content bogusText } emptyStore
      (some ⟨some "drama", some "u1"⟩)).store.recs.map (fun r => r.recommendations)
      = [[⟨some "A", none, none, none, none, none, [], none, none⟩]]) := by
  refine ⟨⟨rfl, rfl, ?_⟩, ⟨rfl, rfl⟩⟩
  have e : (recommend parseSample castSample calmEnv emptyStore
      (some ⟨some "drama", some ""⟩)).store.recs.map (fun r => r.userId) = ["anonymous"] := rfl
  rw [e]
  decide

/-- C7, amended: every `200` of `POST /api/recommend` carries the `userQuery`
of the request as `query`, the output of the normaliser as `recommendations`
and, as `recommendationId`, the identifier of the one record the request
added to the collection; that record holds the same `userQuery`, and as its
recommendations the output of the normaliser as the schema of lines 32-42
casts it; its `userId` is the one of the request when that is a non-empty
string, and `anonymous` when the request has no `userId` or an empty one. -/
theorem recommend_success (parse : String → Option JVal)
    (cast : Recs → Option (List Movie)) (env : Env) (store : Store)
    (body : Option Body) (query : String) (recs : Recs) (id : ObjectId)
    (h : (recommend parse cast env store body).response = .recommended query recs id) :
    (recommend parse cast env store body).response.status = 200 ∧
    ∃ b text parsed movies saved,
      body = some b ∧ b.userQuery = some query ∧
      env.llm = .content text ∧ parse text = some parsed ∧ normalize parsed = .ok recs ∧
      cast recs = some movies ∧
      (recommend parse cast env store body).store.recs = store.recs ++ [saved] ∧
      saved._id = id ∧ saved.userQuery = query ∧ saved.recommendations = movies ∧
      (∀ u, b.userId = some u → u ≠ "" → saved.userId = u) ∧
      (b.userId = none ∨ b.userId = some "" → saved.userId = "anonymous") := by
  obtain ⟨b, text, parsed, logged, movies, hb, hq, _, hh, hl, hp, hn, hc, _, hs, _⟩ :=
    recommend_recommended parse cast env store body query recs id h
  refine ⟨by rw [h]; rfl, b, text, parsed, movies,
    ⟨id, query, movies, userIdOrAnonymous b.userId, env.recordAt⟩, hb, hq, hl, hp, hn, hc,
    ?_, rfl, rfl, rfl, ?_, ?_⟩
  · rw [hs, saveHistory_recs env store logged b.userId query hh]
  · intro u hu hne
    simp [userIdOrAnonymous, truthyText, hu, hne]
  · intro hu
    rcases hu with hu | hu <;> simp [userIdOrAnonymous, truthyText, hu]

/-- C7, witness: the request `{userQuery: "drama", userId: "u1"}` with an LLM
answering `[]`. -/
theorem recommend_success_witness :
    (recommend parseSample castSample calmEnv emptyStore
      (some ⟨some "drama", some "u1"⟩)).response = .recommended "drama" (.seq []) ⟨1⟩ ∧
    (recommend parseSample castSample calmEnv emptyStore
      (some ⟨some "drama", some "u1"⟩)).response.status = 200 :=
  ⟨rfl, (recommend_success parseSample castSample calmEnv emptyStore
    (some ⟨some "drama", some "u1"⟩) "drama" (.seq []) ⟨1⟩ rfl).1⟩

/-- C8, counterexample: the request `{userQuery: "drama", userId: ""}`
supplies a `userId`, and no history entry is created for it. -/
theorem recommend_empty_userId_unlogged :
    (⟨some "drama", some ""⟩ : Body).userId = some "" ∧
    (recommend parseSample castSample calmEnv emptyStore
      (some ⟨some "drama", some ""⟩)).store.history.length = 0 :=
  ⟨rfl, rfl⟩

/-- C8, amended: for every request with a non-empty `userQuery`, if the
request supplies a non-empty `userId` and the history write itself succeeds,
exactly one entry with that `userId` and `query = userQuery` is added, and it
is in the store at the end whatever the LLM call, the normalisation and the
record write do; if the request supplies no `userId` or an empty one, the
history collection is unchanged. -/
theorem recommend_history (parse : String → Option JVal)
    (cast : Recs → Option (List Movie)) (env : Env) (store : Store)
    (b : Body) (query : String) (hq : b.userQuery = some query) (hne : query ≠ "") :
    (∀ u, b.userId = some u → u ≠ "" → env.historyWrite = none →
      (recommend parse cast env store (some b)).store.history
        = store.history ++ [⟨u, query, env.historyAt⟩]) ∧
    (b.userId = none ∨ b.userId = some "" →
      (recommend parse cast env store (some b)).store.history = store.history) := by
  constructor
  · intro u hu hune hw
    have ht : truthyText (some u) = true := by simp [truthyText, hune]
    have hh : saveHistory env store b.userId query
        = .ok { store with history := store.history ++ [⟨u, query, env.historyAt⟩] } := by
      simp [saveHistory, hu, ht, hw]
    rw [recommend_history_after_logging parse cast env store _ b query hq hne hh]
  · intro hu
    have ht : truthyText b.userId = false := by
      rcases hu with hu | hu <;> simp [truthyText, hu]
    have hh : saveHistory env store b.userId query = .ok store := by
      simp [saveHistory, ht]
    rw [recommend_history_after_logging parse cast env store _ b query hq hne hh]

/-- C8, witness: the entry of `{userQuery: "drama", userId: "u1"}` stays in
the store although the LLM call rejects. -/
theorem recommend_history_witness :
    (recommend parseSample castSample { calmEnv with llm := .rejected "timeout" } emptyStore
      (some ⟨some "drama", some "u1"⟩)).response.status = 500 ∧
    (recommend parseSample castSample { calmEnv with llm := .rejected "timeout" } emptyStore
      (some ⟨some "drama", some "u1"⟩)).store.history
      = emptyStore.history ++ [⟨"u1", "drama", 10⟩] :=
  ⟨rfl, (recommend_history parseSample castSample { calmEnv with llm := .rejected "timeout" } emptyStore
    ⟨some "drama", some "u1"⟩ "drama" rfl (by decide)).1 "u1" rfl (by decide) rfl⟩

/-! ## The read handlers: claims C9 and C10 -/

/-- Sorting by a total order and keeping the first `n`: the kept part is
sorted, has `min n (length l)` elements, is together with the dropped part a
rearrangement of `l`, and comes before everything dropped. -/
theorem sort_take_spec {α : Type} (r : α → α → Prop) [DecidableRel r] [IsTotal α r]
    [IsTrans α r] (l : List α) (n : Nat) :
    ((l.insertionSort r).take n).Pairwise r ∧
    ((l.insertionSort r).take n).length = min n l.length ∧
    (((l.insertionSort r).take n) ++ ((l.insertionSort r).drop n)).Perm l ∧
    (∀ a ∈ (l.insertionSort r).take n, ∀ b ∈ (l.insertionSort r).drop n, r a b) := by
  have hs : (l.insertionSort r).Pairwise r := List.sorted_insertionSort r l
  have hsplit : ((l.insertionSort r).take n ++ (l.insertionSort r).drop n).Pairwise r := by
    rw [List.take_append_drop]
    exact hs
  rw [List.pairwise_append] at hsplit
  refine ⟨hsplit.1, ?_, ?_, hsplit.2.2⟩
  · simp [List.length_take, List.length_insertionSort]
  · rw [List.take_append_drop]
    exact List.perm_insertionSort r l

/-- C9, counterexample: no record was ever created (the store is empty), the
identifier `abc` spells no ObjectId, and the response is `500`, not `404`. -/
theorem getRecommendation_uncastable :
    emptyStore.recs = [] ∧ hexObjectId "abc" = none ∧
    (getRecommendation hexObjectId none emptyStore "abc").response.status = 500 ∧
    (getRecommendation hexObjectId none emptyStore "abc").response.status ≠ 404 := by
  refine ⟨rfl, rfl, rfl, ?_⟩
  have e : (getRecommendation hexObjectId none emptyStore "abc").response.status = 500 := rfl
  rw [e]
  decide

/-- C9, amended: for every identifier that the store casts to an ObjectId
and whose lookup does not fail, `GET /api/recommendation/:id` responds `404`
when no record with that ObjectId was ever created, and `200` with a stored
record of that ObjectId when there is one, however the identifier spells it;
when the identifier spells no ObjectId or the lookup fails, it responds `500`;
in every case the store is left unchanged and a repeated request gets the same
outcome. -/
theorem getRecommendation_spec (castObjectId : String → Option ObjectId)
    (readFails : Option String) (store : Store) (id : String) :
    (∀ oid, castObjectId id = some oid → readFails = none →
      (∀ r ∈ store.recs, r._id ≠ oid) →
      (getRecommendation castObjectId readFails store id).response
        = .notFound "Recommendation not found" ∧
      (getRecommendation castObjectId readFails store id).response.status = 404) ∧
    (∀ oid, castObjectId id = some oid → readFails = none →
      (∃ r ∈ store.recs, r._id = oid) →
      ∃ r ∈ store.recs, r._id = oid ∧
        (getRecommendation castObjectId readFails store id).response = .recommendation r ∧
        (getRecommendation castObjectId readFails store id).response.status = 200) ∧
    (castObjectId id = none ∨ readFails ≠ none →
      (getRecommendation castObjectId readFails store id).response.status = 500) ∧
    (getRecommendation castObjectId readFails store id).store = store ∧
    getRecommendation castObjectId readFails
      (getRecommendation castObjectId readFails store id).store id
      = getRecommendation castObjectId readFails store id := by
  have hstore : (getRecommendation castObjectId readFails store id).store = store := by
    unfold getRecommendation
    split <;> rfl
  refine ⟨?_, ?_, ?_, hstore, by rw [hstore]⟩
  · intro oid hc hr habsent
    have hfind : store.recs.find? (fun r => r._id == oid) = none := by
      rw [List.find?_eq_none]
      intro r hrmem
      simpa using habsent r hrmem
    simp [getRecommendation, findById, hc, hr, hfind, Response.status]
  · intro oid hc hr hex
    obtain ⟨r0, hr0, hid0⟩ := hex
    cases hfind : store.recs.find? (fun r => r._id == oid) with
    | none =>
      rw [List.find?_eq_none] at hfind
      exact absurd (by simpa using hid0) (hfind r0 hr0)
    | some r =>
      refine ⟨r, List.mem_of_find?_eq_some hfind, ?_, ?_, ?_⟩
      · simpa using List.find?_some hfind
      · simp [getRecommendation, findById, hc, hr, hfind]
      · simp [getRecommendation, findById, hc, hr, hfind, Response.status]
  · intro h
    rcases h with hc | hr
    · simp [getRecommendation, findById, hc, Response.status]
    · cases hrf : readFails with
      | none => exact absurd hrf hr
      | some msg =>
        cases hc : castObjectId id <;>
          simp [getRecommendation, findById, hc, Response.status]

/-- C9, witness: in a store holding one record, its ObjectId is found under
the upper-case spelling too, and another ObjectId is not found. -/
theorem getRecommendation_spec_witness :
    (getRecommendation hexObjectId none busyStore "ffffffffffffffffffffffff").response.status
      = 404 ∧
    (∃ r ∈ busyStore.recs, r._id = ⟨0x0123456789abcdef01234567⟩ ∧
      (getRecommendation hexObjectId none busyStore "0123456789ABCDEF01234567").response
        = .recommendation r ∧
      (getRecommendation hexObjectId none busyStore
        "0123456789ABCDEF01234567").response.status = 200) :=
  ⟨((getRecommendation_spec hexObjectId none busyStore "ffffffffffffffffffffffff").1
      ⟨0xffffffffffffffffffffffff⟩ rfl rfl (by simp [busyStore])).2,
   (getRecommendation_spec hexObjectId none busyStore "0123456789ABCDEF01234567").2.1
      ⟨0x0123456789abcdef01234567⟩ rfl rfl ⟨_, List.mem_singleton.2 rfl, rfl⟩⟩

/-- C10: for every `userId` and every store, `GET /api/history/:userId` (its
query not failing) returns only entries of that user, ordered by timestamp
descending and truncated to 10: `min 10 N` of the `N` entries of the user,
every entry of the user that is left out being no newer than any returned one;
likewise `GET /api/recommendations/:userId` with `createdAt` and the limit
20. -/
theorem reads_newest_first (store : Store) (userId : String) :
    (∃ entries rest,
      (getHistory none store userId).response = .history entries ∧
      (∀ e ∈ entries, e ∈ store.history ∧ e.userId = userId) ∧
      entries.Pairwise (fun a b => b.timestamp ≤ a.timestamp) ∧
      entries.length = min 10 (store.history.filter fun e => e.userId == userId).length ∧
      (entries ++ rest).Perm (store.history.filter fun e => e.userId == userId) ∧
      (∀ e ∈ entries, ∀ o ∈ rest, o.timestamp ≤ e.timestamp)) ∧
    (∃ records rest,
      (getRecommendations none store userId).response = .recommendations records ∧
      (∀ r ∈ records, r ∈ store.recs ∧ r.userId = userId) ∧
      records.Pairwise (fun a b => b.createdAt ≤ a.createdAt) ∧
      records.length = min 20 (store.recs.filter fun r => r.userId == userId).length ∧
      (records ++ rest).Perm (store.recs.filter fun r => r.userId == userId) ∧
      (∀ r ∈ records, ∀ o ∈ rest, o.createdAt ≤ r.createdAt)) := by
  constructor
  · obtain ⟨hsorted, hlen, hperm, hcross⟩ :=
      sort_take_spec newerEntry (store.history.filter fun e => e.userId == userId) 10
    refine ⟨_, _, rfl, ?_, hsorted, hlen, hperm, hcross⟩
    intro e he
    have hmem : e ∈ store.history.filter fun e => e.userId == userId :=
      hperm.subset (List.mem_append_left _ he)
    simpa using hmem
  · obtain ⟨hsorted, hlen, hperm, hcross⟩ :=
      sort_take_spec newerRecord (store.recs.filter fun r => r.userId == userId) 20
    refine ⟨_, _, rfl, ?_, hsorted, hlen, hperm, hcross⟩
    intro r hr
    have hmem : r ∈ store.recs.filter fun r => r.userId == userId :=
      hperm.subset (List.mem_append_left _ hr)
    simpa using hmem

/-- The history of `u1` in the sample store: the ten newest of the eleven
entries, newest first, without the entry of `u2`. -/
theorem getHistory_busyStore :
    (findHistory busyStore "u1").map (fun e => e.query)
      = ["q11", "q10", "q9", "q8", "q7", "q6", "q5", "q4", "q3", "q2"] := by
  decide

end NextWatch
